import Mathlib

/-!
Shallow embedding of `src/federatedrec/param/matrix_factorization_param.py`
(FATE matrix-factorization configuration parameters).

Python values relevant to this module are embedded as the inductive type
`PyVal`.  `SimpleNamespace(converge_func=..., eps=...)` and
`SimpleNamespace(optimizer=..., kwargs=...)` — the only two namespace shapes
the module builds — are embedded as the constructors `nsEarly` and `nsOpt`.
Python floats carry no arithmetic here (only comparisons and equality), so
they are embedded as rationals.  Python dicts are insertion-ordered maps with
string keys in every use in this module; they are embedded as association
lists.
-/

inductive PyVal : Type where
  | none : PyVal
  | bool : Bool → PyVal
  | int : Int → PyVal
  | float : ℚ → PyVal
  | str : String → PyVal
  | list : List PyVal → PyVal
  | dict : List (String × PyVal) → PyVal
  | nsEarly : PyVal → PyVal → PyVal
  | nsOpt : PyVal → List (String × PyVal) → PyVal

/-- `d.get(k, default)` without the default: first (unique) binding of `k`. -/
def dictGet (entries : List (String × PyVal)) (k : String) : Option PyVal :=
  (entries.find? (fun kv => kv.1 == k)).map (fun kv => kv.2)

/-- Python truthiness (`bool(v)`); `SimpleNamespace` objects are truthy. -/
def pyTruthy : PyVal → Bool
  | .none => false
  | .bool b => b
  | .int n => decide (n ≠ 0)
  | .float q => decide (q ≠ 0)
  | .str s => decide (s ≠ "")
  | .list xs => !xs.isEmpty
  | .dict es => !es.isEmpty
  | .nsEarly _ _ => true
  | .nsOpt _ _ => true

/-- Numeric view: `isinstance(v, (int, float))` with the value it denotes.
Python `bool` is a subclass of `int`, so booleans count as numeric. -/
def toNum? : PyVal → Option ℚ
  | .bool b => some (if b then 1 else 0)
  | .int n => some (n : ℚ)
  | .float q => some (q : ℚ)
  | _ => Option.none

/-- Python `v == n` against an int literal: numeric values compare by value
(`-1.0 == -1` and `True == 1` hold), everything else is unequal. -/
def pyEqInt (v : PyVal) (n : Int) : Bool :=
  match v with
  | .int m => decide (m = n)
  | .bool b => decide ((if b then (1 : Int) else 0) = n)
  | .float q => decide (q = (n : ℚ))
  | _ => false

/-- `type(v).__name__ == "int"`: true exactly for ints (not for bools). -/
def isIntType : PyVal → Bool
  | .int _ => true
  | _ => false

/-- `isinstance(v, str) ∨ isinstance(v, dict)`. -/
def isStrOrDict : PyVal → Bool
  | .str _ => true
  | .dict _ => true
  | _ => false

/-- `isinstance(v, str) ∨ isinstance(v, list)`. -/
def isStrOrList : PyVal → Bool
  | .str _ => true
  | .list _ => true
  | _ => false

/-- `default_eps = 0.0001` in `_parse_early_stop`. -/
def defaultEps : ℚ := 1 / 10000

def earlyStopConfigMsg : String := "early_stop config invalid"

def earlyStopTypeMsg : String := "invalid type for early_stop"

def optimizerConfigMsg : String := "optimizer config invalid"

def optimizerTypeMsg : String := "invalid type for optimize"

def metricsTypeMsg : String := "invalid metrics type"

/-- `MatrixFactorizationParam._parse_early_stop`.  A raised `ValueError` is
embedded as `Except.error` (messages abbreviated: the claims do not depend on
the exact text). -/
def _parse_early_stop (param : PyVal) : Except String PyVal :=
  match param with
  | .str s => .ok (.nsEarly (.str s) (.float defaultEps))
  | .dict entries =>
      let early_stop := (dictGet entries "early_stop").getD PyVal.none
      let eps := (dictGet entries "eps").getD (.float defaultEps)
      if pyTruthy early_stop then .ok (.nsEarly early_stop eps)
      else .error earlyStopConfigMsg
  | _ => .error earlyStopTypeMsg

/-- `MatrixFactorizationParam._parse_optimizer`.  The source initialises
`kwargs = {}` and uses it as the `param.get("optimizer", kwargs)` default, so
a missing name defaults to the empty dict, which is falsy. -/
def _parse_optimizer (param : PyVal) : Except String PyVal :=
  match param with
  | .str s => .ok (.nsOpt (.str s) [])
  | .dict entries =>
      let optimizer := (dictGet entries "optimizer").getD (.dict [])
      if pyTruthy optimizer then
        .ok (.nsOpt optimizer (entries.filter (fun kv => kv.1 != "optimizer")))
      else .error optimizerConfigMsg
  | _ => .error optimizerTypeMsg

/-- `MatrixFactorizationParam._parse_metrics`: `if not param: return []`
comes first, so every falsy input yields the empty list. -/
def _parse_metrics (param : PyVal) : Except String PyVal :=
  if pyTruthy param then
    match param with
    | .str s => .ok (.list [.str s])
    | .list xs => .ok (.list xs)
    | _ => .error metricsTypeMsg
  else .ok (.list [])

example : _parse_early_stop (.str "diff")
    = .ok (.nsEarly (.str "diff") (.float defaultEps)) := rfl

example : _parse_early_stop (.dict [("early_stop", .str "abs"), ("eps", .float (1/100))])
    = .ok (.nsEarly (.str "abs") (.float (1/100))) := rfl

example : _parse_early_stop (.dict [("early_stop", .str ""), ("eps", .float (1/100))])
    = .error earlyStopConfigMsg := rfl

example : _parse_optimizer (.dict [("optimizer", .str "SGD"), ("decay", .int 1)])
    = .ok (.nsOpt (.str "SGD") [("decay", .int 1)]) := rfl

example : _parse_metrics (.str "") = .ok (.list []) := rfl

/-- `MtxFInitParam`: embedding dimension and initialisation method, as set by
its constructor (defaults `embed_dim=10`, `init_method="random_normal"`). -/
structure MtxFInitParam : Type where
  embed_dim : PyVal
  init_method : PyVal

/-- Modelled from the spec: `InitParam.check` of the base framework
(`federatedml/param/init_model_param.py`, not under src/).  Per the spec the
initialisation sub-object holds an embedding dimension (positive integer) and
an initialisation method (enumerated string); its check validates exactly
that. -/
def MtxFInitParam.check (p : MtxFInitParam) : Except String Bool :=
  match p.init_method, p.embed_dim with
  | .str m, .int d =>
      if (["random_normal", "random_uniform", "ones", "zeros", "const"].contains m
          && decide (0 < d)) then .ok true
      else .error "init_param invalid"
  | _, _ => .error "init_param invalid"

/-- Modelled from the spec: `consts.MIN_BATCH_SIZE` (the constants module is
outside src/); the source error message says batch size "should be larger
than 10". -/
def MIN_BATCH_SIZE : Int := 10

def batchSizeMsg : String :=
  "batch_size not supported, should be larger than MIN_BATCH_SIZE or -1 represent for all data"

def decayMsg : String := "optimizer.decay not supported"

def learningRateMsg : String := "optimizer.learning_rate not supported"

def maxIterTypeMsg : String := "max_iter not supported, should be int type"

def maxIterPosMsg : String := "max_iter must be greater or equal to 1"

def aggregateItersMsg : String := "aggregate_iters not supported, should be int type"

/-- `MatrixFactorizationParam`: the fields assigned by its constructor.
`predict_param`, `cv_param` and `validation_freqs` are opaque to every claim;
they are carried as `PyVal` placeholders. -/
structure MatrixFactorizationParam : Type where
  secure_aggregate : PyVal
  aggregate_every_n_epoch : PyVal
  early_stop : PyVal
  metrics : PyVal
  loss : PyVal
  optimizer : PyVal
  batch_size : PyVal
  init_param : MtxFInitParam
  predict_param : PyVal
  cv_param : PyVal
  validation_freqs : PyVal
  max_iter : PyVal

/-- `MatrixFactorizationParam.__init__`: plain field assignment (the deep
copies of the sub-objects are the identity in a pure model). -/
def MatrixFactorizationParam.init
    (secure_aggregate aggregate_every_n_epoch early_stop optimizer batch_size : PyVal)
    (init_param : MtxFInitParam)
    (max_iter predict_param cv_param validation_freqs metrics loss : PyVal) :
    MatrixFactorizationParam :=
  { secure_aggregate := secure_aggregate
    aggregate_every_n_epoch := aggregate_every_n_epoch
    early_stop := early_stop
    metrics := metrics
    loss := loss
    optimizer := optimizer
    batch_size := batch_size
    init_param := init_param
    predict_param := predict_param
    cv_param := cv_param
    validation_freqs := validation_freqs
    max_iter := max_iter }

/-- The batch-size validation step of `check`: skipped when
`batch_size == -1` (Python numeric equality); otherwise the value must have
type exactly `int` and be at least `MIN_BATCH_SIZE`. -/
def batchSizeError (v : PyVal) : Option String :=
  if pyEqInt v (-1) then Option.none
  else match v with
    | .int n => if n < MIN_BATCH_SIZE then some batchSizeMsg else Option.none
    | _ => some batchSizeMsg

/-- The `decay` / `learning_rate` validation step of `check`: when the key is
present in the optimizer kwargs, its value must be numeric
(`isinstance(v, (int, float))`, so booleans count) and non-negative. -/
def kwargError (key : String) (msg : String) (kw : List (String × PyVal)) :
    Option String :=
  match dictGet kw key with
  | Option.none => Option.none
  | some v =>
      match toNum? v with
      | Option.none => some msg
      | some q => if q < 0 then some msg else Option.none

/-- The `max_iter` validation step of `check`: type exactly `int`, positive. -/
def maxIterError (v : PyVal) : Option String :=
  match v with
  | .int n => if n ≤ 0 then some maxIterPosMsg else Option.none
  | _ => some maxIterTypeMsg

/-- Attribute access `ns.kwargs` (`self.optimizer.__dict__["kwargs"]`).  In
`check` it is only ever applied to the output of `_parse_optimizer`, which is
always an `nsOpt`; the catch-all branch is unreachable there. -/
def PyVal.kwargsAttr : PyVal → List (String × PyVal)
  | .nsOpt _ kw => kw
  | _ => []

/-- `MatrixFactorizationParam.check`.  The Python method mutates `self` (the
three normalizers overwrite their fields) and then raises on the first failed
validation; the embedding returns the field state at exit together with the
result (`ok true` on success, `error` for a raised `ValueError`). -/
def MatrixFactorizationParam.check (p : MatrixFactorizationParam) :
    MatrixFactorizationParam × Except String Bool :=
  match _parse_early_stop p.early_stop with
  | .error e => (p, .error e)
  | .ok es =>
  let p1 := { p with early_stop := es }
  match _parse_optimizer p1.optimizer with
  | .error e => (p1, .error e)
  | .ok opt =>
  let p2 := { p1 with optimizer := opt }
  match _parse_metrics p2.metrics with
  | .error e => (p2, .error e)
  | .ok ms =>
  let p3 := { p2 with metrics := ms }
  match batchSizeError p3.batch_size with
  | some e => (p3, .error e)
  | Option.none =>
  match kwargError "decay" decayMsg p3.optimizer.kwargsAttr with
  | some e => (p3, .error e)
  | Option.none =>
  match kwargError "learning_rate" learningRateMsg p3.optimizer.kwargsAttr with
  | some e => (p3, .error e)
  | Option.none =>
  match p3.init_param.check with
  | .error e => (p3, .error e)
  | .ok _ =>
  match maxIterError p3.max_iter with
  | some e => (p3, .error e)
  | Option.none => (p3, .ok true)

/-- `HeteroMatrixParam`: the base fields plus `aggregate_iters`. -/
structure HeteroMatrixParam extends MatrixFactorizationParam where
  aggregate_iters : PyVal

/-- `HeteroMatrixParam.__init__`: forwards `optimizer`, `batch_size`,
`init_param`, `max_iter`, `early_stop`, `predict_param`, `cv_param` and
`validation_freqs` to the base constructor (whose remaining parameters take
their defaults: `secure_aggregate=True`, `aggregate_every_n_epoch=1`,
`metrics=None`, `loss="mse"`), then stores `aggregate_iters`.  The
parameters `penalty`, `tol`, `alpha`, `learning_rate`, `decay` and
`decay_sqrt` appear in the source signature but are never used. -/
def HeteroMatrixParam.init
    (penalty tol alpha optimizer batch_size learning_rate : PyVal)
    (init_param : MtxFInitParam)
    (max_iter early_stop predict_param cv_param decay decay_sqrt
     aggregate_iters validation_freqs : PyVal) :
    HeteroMatrixParam :=
  { toMatrixFactorizationParam :=
      MatrixFactorizationParam.init (.bool true) (.int 1) early_stop optimizer
        batch_size init_param max_iter predict_param cv_param validation_freqs
        PyVal.none (.str "mse")
    aggregate_iters := aggregate_iters }

/-- `HeteroMatrixParam.check`: the base check (mutating the base fields),
then `isinstance(self.aggregate_iters, int)` — booleans pass, being a
subclass of `int` in Python. -/
def HeteroMatrixParam.check (h : HeteroMatrixParam) :
    HeteroMatrixParam × Except String Bool :=
  let r := h.toMatrixFactorizationParam.check
  let h1 := { h with toMatrixFactorizationParam := r.1 }
  match r.2 with
  | .error e => (h1, .error e)
  | .ok _ =>
      match h1.aggregate_iters with
      | .int _ => (h1, .ok true)
      | .bool _ => (h1, .ok true)
      | _ => (h1, .error aggregateItersMsg)

mutual

/-- Whether `json.dumps` accepts the value (`SimpleNamespace` objects are not
JSON-serializable; scalars, strings, lists and dicts are). -/
def jsonable : PyVal → Bool
  | .none => true
  | .bool _ => true
  | .int _ => true
  | .float _ => true
  | .str _ => true
  | .list xs => jsonableList xs
  | .dict es => jsonableEntries es
  | .nsEarly _ _ => false
  | .nsOpt _ _ => false

def jsonableList : List PyVal → Bool
  | [] => true
  | x :: xs => jsonable x && jsonableList xs

def jsonableEntries : List (String × PyVal) → Bool
  | [] => true
  | (_, v) :: es => jsonable v && jsonableEntries es

end

/-- The values of a metrics list as strings, when they all are strings
(appending a non-string to the repeated string field raises). -/
def asStrList : List PyVal → Option (List String)
  | [] => some []
  | .str s :: xs => (asStrList xs).map (fun ss => s :: ss)
  | _ => Option.none

/-- Modelled from the spec: `mf_model_meta_pb2.HeteroMFParam`, the persisted
binary record (schema outside src/).  Per the spec it carries the
secure-aggregate flag, aggregation cadence, batch size, max iterations,
early-stop method and epsilon, repeated metric names, optimizer name with a
text-encoded argument blob, loss name and embedding dimension.  The
`json.dumps` text blob is carried as the keyword-argument mapping itself:
`dumps` followed by `loads` is the identity on JSON-representable values, so
the encode/decode pair is modelled as the identity. -/
structure HeteroMFParam : Type where
  secure_aggregate : Bool
  aggregate_every_n_epoch : Int
  batch_size : Int
  max_iter : Int
  early_stop_method : String
  early_stop_eps : ℚ
  metrics : List String
  optimizer_name : String
  optimizer_args : List (String × PyVal)
  loss : String
  embed_dim : Int

/-- `HeteroMatrixParam.generate_pb`: copies each field into the typed record.
A field whose runtime shape does not fit its schema type (or optimizer kwargs
that `json.dumps` rejects) raises, embedded as `Except.error`. -/
def HeteroMatrixParam.generate_pb (h : HeteroMatrixParam) :
    Except String HeteroMFParam :=
  match h.secure_aggregate, h.aggregate_every_n_epoch, h.batch_size, h.max_iter,
        h.early_stop, h.metrics, h.optimizer, h.loss, h.init_param.embed_dim with
  | .bool sa, .int agg, .int bs, .int mi, .nsEarly (.str m) epsv, .list ms,
    .nsOpt (.str o) kw, .str l, .int ed =>
      match toNum? epsv, asStrList ms with
      | some q, some ss =>
          if jsonableEntries kw then
            .ok { secure_aggregate := sa
                  aggregate_every_n_epoch := agg
                  batch_size := bs
                  max_iter := mi
                  early_stop_method := m
                  early_stop_eps := q
                  metrics := ss
                  optimizer_name := o
                  optimizer_args := kw
                  loss := l
                  embed_dim := ed }
          else .error "TypeError: kwargs not JSON serializable"
      | _, _ => .error "TypeError: field does not fit the schema"
  | _, _, _, _, _, _, _, _, _ => .error "TypeError: field does not fit the schema"

/-- `HeteroMatrixParam.restore_from_pb`: copies the scalars back, re-runs
`_parse_early_stop` on `dict(early_stop=..., eps=...)` and `_parse_optimizer`
on `dict(optimizer=..., **json.loads(args))` (which raises when the decoded
blob itself has an "optimizer" key), rebuilds the metrics list and a fresh
`MtxFInitParam` from the stored embedding dimension (its method reverts to
the constructor default).  The Python method mutates `self`; the embedding
returns the updated record, or the raised error. -/
def HeteroMatrixParam.restore_from_pb (h : HeteroMatrixParam)
    (pb : HeteroMFParam) : Except String HeteroMatrixParam :=
  let s1 := { h with
    secure_aggregate := PyVal.bool pb.secure_aggregate
    aggregate_every_n_epoch := PyVal.int pb.aggregate_every_n_epoch
    batch_size := PyVal.int pb.batch_size
    max_iter := PyVal.int pb.max_iter }
  match _parse_early_stop (.dict [("early_stop", .str pb.early_stop_method),
                                  ("eps", .float pb.early_stop_eps)]) with
  | .error e => .error e
  | .ok es =>
  let s2 := { s1 with early_stop := es, metrics := PyVal.list (pb.metrics.map PyVal.str) }
  if pb.optimizer_args.any (fun kv => kv.1 == "optimizer") then
    .error "TypeError: got multiple values for keyword argument optimizer"
  else
    match _parse_optimizer (.dict (("optimizer", .str pb.optimizer_name)
                                   :: pb.optimizer_args)) with
    | .error e => .error e
    | .ok opt =>
        .ok { s2 with
          optimizer := opt
          loss := PyVal.str pb.loss
          init_param := { embed_dim := PyVal.int pb.embed_dim
                          init_method := PyVal.str "random_normal" } }

/-- `generate_pb` followed by `restore_from_pb` on the produced record. -/
def HeteroMatrixParam.roundTrip (h : HeteroMatrixParam) :
    Except String HeteroMatrixParam :=
  match h.generate_pb with
  | .error e => .error e
  | .ok pb => h.restore_from_pb pb

/-- A `HeteroMatrixParam` whose fields are in the canonical normalized shape
the spec's data model describes (the shape `check` leaves behind): typed
scalars, early stop as a namespace of a method string and a float epsilon,
metrics as a list of strings, optimizer as a namespace of a name string and
a kwargs mapping (which, when produced by `_parse_optimizer`, holds no
"optimizer" key and only JSON-representable values).  Note `check` does NOT
guarantee the method or name strings are non-empty: the string branches of
the normalizers skip the truthiness guard, so empty method/name are
reachable canonical states, on which the round trip fails (see the
round-trip counterexample below). -/
def mkHetero (sa : Bool) (agg bs mi : Int) (m : String) (q : ℚ)
    (ms : List String) (o : String) (kw : List (String × PyVal)) (l : String)
    (ed : Int) (im pp cv vf ai : PyVal) : HeteroMatrixParam :=
  { secure_aggregate := PyVal.bool sa
    aggregate_every_n_epoch := PyVal.int agg
    early_stop := PyVal.nsEarly (.str m) (.float q)
    metrics := PyVal.list (ms.map PyVal.str)
    loss := PyVal.str l
    optimizer := PyVal.nsOpt (.str o) kw
    batch_size := PyVal.int bs
    init_param := { embed_dim := PyVal.int ed, init_method := im }
    predict_param := pp
    cv_param := cv
    validation_freqs := vf
    max_iter := PyVal.int mi
    aggregate_iters := ai }

/-- `HeteroMatrixParam(early_stop="")` — every other constructor argument at
its documented default.  `check()` accepts it: the early-stop string branch
has no truthiness guard. -/
def emptyMethodParam : HeteroMatrixParam :=
  HeteroMatrixParam.init (.str "L2") (.float (1/100000)) (.float 1) (.str "sgd")
    (.int (-1)) (.float (1/100))
    { embed_dim := .int 10, init_method := .str "random_normal" }
    (.int 100) (.str "") PyVal.none PyVal.none (.int 1) (.bool true) (.int 1)
    PyVal.none

/-- `HeteroMatrixParam(optimizer="")` — every other constructor argument at
its documented default.  `check()` accepts it: the optimizer string branch
has no truthiness guard. -/
def emptyNameParam : HeteroMatrixParam :=
  HeteroMatrixParam.init (.str "L2") (.float (1/100000)) (.float 1) (.str "")
    (.int (-1)) (.float (1/100))
    { embed_dim := .int 10, init_method := .str "random_normal" }
    (.int 100) (.str "diff") PyVal.none PyVal.none (.int 1) (.bool true)
    (.int 1) PyVal.none

/-- The default-constructed base parameter object:
`MatrixFactorizationParam()` with every argument at its documented default. -/
def defaultParams : MatrixFactorizationParam :=
  MatrixFactorizationParam.init (.bool true) (.int 1) (.str "diff") (.str "SGD")
    (.int (-1)) { embed_dim := .int 10, init_method := .str "random_normal" }
    (.int 100) PyVal.none PyVal.none PyVal.none PyVal.none (.str "mse")

/-- Defaults with the given batch size. -/
def paramsWithBatch (b : Int) : MatrixFactorizationParam :=
  { defaultParams with batch_size := .int b }

/-- Defaults with `optimizer = dict(optimizer="SGD", key=v)`. -/
def paramsWithOptKw (key : String) (v : PyVal) : MatrixFactorizationParam :=
  { defaultParams with optimizer := .dict [("optimizer", .str "SGD"), (key, v)] }

/-- Defaults with the given `max_iter` value. -/
def paramsWithMaxIter (m : PyVal) : MatrixFactorizationParam :=
  { defaultParams with max_iter := m }

theorem check_unfold (p : MatrixFactorizationParam) (es optName : PyVal)
    (kw : List (String × PyVal)) (ms : PyVal)
    (h1 : _parse_early_stop p.early_stop = .ok es)
    (h2 : _parse_optimizer p.optimizer = .ok (.nsOpt optName kw))
    (h3 : _parse_metrics p.metrics = .ok ms) :
    p.check =
      ({ p with early_stop := es, optimizer := .nsOpt optName kw, metrics := ms },
        match batchSizeError p.batch_size with
        | some e => Except.error e
        | Option.none =>
        match kwargError "decay" decayMsg kw with
        | some e => Except.error e
        | Option.none =>
        match kwargError "learning_rate" learningRateMsg kw with
        | some e => Except.error e
        | Option.none =>
        match p.init_param.check with
        | .error e => Except.error e
        | .ok _ =>
        match maxIterError p.max_iter with
        | some e => Except.error e
        | Option.none => Except.ok true) := by
  unfold MatrixFactorizationParam.check
  rw [h1]
  simp only []
  rw [h2]
  simp only []
  rw [h3]
  simp only [PyVal.kwargsAttr]
  repeat' split
  all_goals first | rfl | simp_all

theorem check_state (p : MatrixFactorizationParam) (es opt ms : PyVal)
    (h1 : _parse_early_stop p.early_stop = .ok es)
    (h2 : _parse_optimizer p.optimizer = .ok opt)
    (h3 : _parse_metrics p.metrics = .ok ms) :
    (p.check).1 = { p with early_stop := es, optimizer := opt, metrics := ms } := by
  unfold MatrixFactorizationParam.check
  rw [h1]
  simp only []
  rw [h2]
  simp only []
  rw [h3]
  repeat' split
  all_goals first | rfl | simp_all

theorem asStrList_map_str (ss : List String) :
    asStrList (ss.map PyVal.str) = some ss := by
  induction ss with
  | nil => rfl
  | cons s rest ih => simp [asStrList, ih]

theorem jsonableEntries_of_forall (kw : List (String × PyVal))
    (h : ∀ kv ∈ kw, jsonable kv.2 = true) : jsonableEntries kw = true := by
  induction kw with
  | nil => rfl
  | cons kv rest ih =>
      obtain ⟨k, v⟩ := kv
      have hv : jsonable v = true := h (k, v) (List.mem_cons_self _ _)
      have hr : jsonableEntries rest = true :=
        ih (fun kv hkv => h kv (List.mem_cons_of_mem _ hkv))
      simp [jsonableEntries, hv, hr]

/-- C10: the `HeteroMatrixParam` constructor ignores its `penalty`, `tol`,
`alpha`, `learning_rate`, `decay` and `decay_sqrt` arguments entirely: two
objects built with identical remaining arguments but arbitrary values of
those six arguments are field-for-field equal. -/
theorem hetero_init_ignores_unused_args
    (penalty₁ tol₁ alpha₁ lr₁ decay₁ ds₁ penalty₂ tol₂ alpha₂ lr₂ decay₂ ds₂
     optimizer batch_size max_iter early_stop pp cv ai vf : PyVal)
    (ip : MtxFInitParam) :
    HeteroMatrixParam.init penalty₁ tol₁ alpha₁ optimizer batch_size lr₁ ip
      max_iter early_stop pp cv decay₁ ds₁ ai vf
    = HeteroMatrixParam.init penalty₂ tol₂ alpha₂ optimizer batch_size lr₂ ip
      max_iter early_stop pp cv decay₂ ds₂ ai vf := rfl

/-- C2 (code bug): `check()` is not idempotent.  On the default-constructed
parameters the first `check()` succeeds and leaves `early_stop` as a
`SimpleNamespace`, which `_parse_early_stop` rejects, so the second `check()`
always raises — contrary to the constructor's own
`Union[str, dict, SimpleNamespace]` declaration for the field. -/
theorem check_second_call_always_fails :
    (defaultParams.check).2 = .ok true ∧
    ((defaultParams.check).1.check).2 = .error earlyStopTypeMsg := ⟨rfl, rfl⟩

/-- C3 (counterexample): a mapping that does contain the method key and an
epsilon, but with an empty-string method, is rejected (the source tests
`if not early_stop`, Python truthiness) instead of yielding the pair the
claim promises. -/
theorem parse_early_stop_empty_method_counterexample :
    _parse_early_stop (.dict [("early_stop", .str ""), ("eps", .float (1/100))])
      = .error earlyStopConfigMsg ∧
    _parse_early_stop (.dict [("early_stop", .str ""), ("eps", .float (1/100))])
      ≠ .ok (.nsEarly (.str "") (.float (1/100))) := by
  refine ⟨rfl, fun hcontra => ?_⟩
  have h0 : (Except.error earlyStopConfigMsg : Except String PyVal)
      = .ok (.nsEarly (.str "") (.float (1/100))) := hcontra
  exact Except.noConfusion h0

/-- C3 (amended): the early-stop normalizer maps every string `s` to the pair
(method `s`, default epsilon); maps every mapping whose method key holds a
truthy value to (that value, the mapping's epsilon, defaulted); and fails for
every mapping whose method key is absent or falsy, and for every input that
is neither string nor mapping. -/
theorem parse_early_stop_characterization :
    (∀ s : String,
        _parse_early_stop (.str s) = .ok (.nsEarly (.str s) (.float defaultEps))) ∧
    (∀ (entries : List (String × PyVal)) (m : PyVal),
        dictGet entries "early_stop" = some m → pyTruthy m = true →
        _parse_early_stop (.dict entries)
          = .ok (.nsEarly m ((dictGet entries "eps").getD (.float defaultEps)))) ∧
    (∀ entries : List (String × PyVal),
        pyTruthy ((dictGet entries "early_stop").getD PyVal.none) = false →
        _parse_early_stop (.dict entries) = .error earlyStopConfigMsg) ∧
    (∀ v : PyVal, isStrOrDict v = false →
        _parse_early_stop v = .error earlyStopTypeMsg) := by
  refine ⟨fun s => rfl, fun entries m hm ht => ?_, fun entries hf => ?_, fun v hv => ?_⟩
  · simp [_parse_early_stop, hm, ht]
  · simp [_parse_early_stop, hf]
  · cases v <;> simp_all [isStrOrDict, _parse_early_stop]

theorem parse_early_stop_characterization_witness :
    _parse_early_stop (.str "abs")
      = .ok (.nsEarly (.str "abs") (.float defaultEps)) ∧
    _parse_early_stop (.dict [("early_stop", .str "abs"), ("eps", .float (1/100))])
      = .ok (.nsEarly (.str "abs") (.float (1/100))) ∧
    _parse_early_stop (.dict [("eps", .float (1/100))]) = .error earlyStopConfigMsg ∧
    _parse_early_stop (.int 3) = .error earlyStopTypeMsg := by
  refine ⟨parse_early_stop_characterization.1 "abs", ?_, ?_, ?_⟩
  · exact parse_early_stop_characterization.2.1
      [("early_stop", .str "abs"), ("eps", .float (1/100))] (.str "abs") rfl rfl
  · exact parse_early_stop_characterization.2.2.1 [("eps", .float (1/100))] rfl
  · exact parse_early_stop_characterization.2.2.2 (.int 3) rfl

/-- C4 (counterexample): a mapping containing the optimizer-name key with an
empty-string value is rejected (`if not optimizer`, Python truthiness)
instead of yielding that name with an empty argument set. -/
theorem parse_optimizer_empty_name_counterexample :
    _parse_optimizer (.dict [("optimizer", .str "")]) = .error optimizerConfigMsg ∧
    _parse_optimizer (.dict [("optimizer", .str "")]) ≠ .ok (.nsOpt (.str "") []) := by
  refine ⟨rfl, fun hcontra => ?_⟩
  have h0 : (Except.error optimizerConfigMsg : Except String PyVal)
      = .ok (.nsOpt (.str "") []) := hcontra
  exact Except.noConfusion h0

/-- C4 (amended): the optimizer normalizer maps every string to (that name,
empty argument set); maps every mapping whose name key holds a truthy value
to that name together with all entries except the name key; and fails for
every mapping whose name key is absent or falsy, and for every input of an
unsupported type. -/
theorem parse_optimizer_characterization :
    (∀ s : String, _parse_optimizer (.str s) = .ok (.nsOpt (.str s) [])) ∧
    (∀ (entries : List (String × PyVal)) (name : PyVal),
        dictGet entries "optimizer" = some name → pyTruthy name = true →
        _parse_optimizer (.dict entries)
          = .ok (.nsOpt name (entries.filter (fun kv => kv.1 != "optimizer")))) ∧
    (∀ entries : List (String × PyVal),
        pyTruthy ((dictGet entries "optimizer").getD (.dict [])) = false →
        _parse_optimizer (.dict entries) = .error optimizerConfigMsg) ∧
    (∀ v : PyVal, isStrOrDict v = false →
        _parse_optimizer v = .error optimizerTypeMsg) := by
  refine ⟨fun s => rfl, fun entries name hm ht => ?_, fun entries hf => ?_, fun v hv => ?_⟩
  · simp [_parse_optimizer, hm, ht]
  · simp [_parse_optimizer, hf]
  · cases v <;> simp_all [isStrOrDict, _parse_optimizer]

theorem parse_optimizer_characterization_witness :
    _parse_optimizer (.str "SGD") = .ok (.nsOpt (.str "SGD") []) ∧
    _parse_optimizer (.dict [("optimizer", .str "SGD"), ("learning_rate", .float (1/20))])
      = .ok (.nsOpt (.str "SGD") [("learning_rate", .float (1/20))]) ∧
    _parse_optimizer (.dict [("learning_rate", .float (1/20))])
      = .error optimizerConfigMsg ∧
    _parse_optimizer (.int 3) = .error optimizerTypeMsg := by
  refine ⟨parse_optimizer_characterization.1 "SGD", ?_, ?_, ?_⟩
  · exact parse_optimizer_characterization.2.1
      [("optimizer", .str "SGD"), ("learning_rate", .float (1/20))] (.str "SGD") rfl rfl
  · exact parse_optimizer_characterization.2.2.1 [("learning_rate", .float (1/20))] rfl
  · exact parse_optimizer_characterization.2.2.2 (.int 3) rfl

/-- C5 (counterexample): the metrics normalizer begins with
`if not param: return []`, so the empty string maps to the empty list (not to
a one-element list as the claim states for every string), and the falsy
non-string non-list input `0` also maps to the empty list instead of
failing. -/
theorem parse_metrics_falsy_counterexample :
    _parse_metrics (.str "") = .ok (.list []) ∧
    _parse_metrics (.str "") ≠ .ok (.list [.str ""]) ∧
    _parse_metrics (.int 0) = .ok (.list []) ∧
    _parse_metrics (.int 0) ≠ .error metricsTypeMsg := by
  refine ⟨rfl, fun hcontra => ?_, rfl, fun hcontra => ?_⟩
  · have h0 : (Except.ok (PyVal.list []) : Except String PyVal)
        = .ok (.list [.str ""]) := hcontra
    simp at h0
  · have h0 : (Except.ok (PyVal.list []) : Except String PyVal)
        = .error metricsTypeMsg := hcontra
    exact Except.noConfusion h0

/-- C5 (amended): the metrics normalizer returns the empty list for every
falsy input (unset, empty string, empty list, zero, `False`), a one-element
list for every non-empty string, the list itself for every list, and fails
exactly on truthy inputs that are neither string nor list. -/
theorem parse_metrics_characterization :
    (∀ v : PyVal, pyTruthy v = false → _parse_metrics v = .ok (.list [])) ∧
    (∀ s : String, s ≠ "" → _parse_metrics (.str s) = .ok (.list [.str s])) ∧
    (∀ xs : List PyVal, xs ≠ [] → _parse_metrics (.list xs) = .ok (.list xs)) ∧
    (∀ v : PyVal, pyTruthy v = true → isStrOrList v = false →
        _parse_metrics v = .error metricsTypeMsg) := by
  refine ⟨fun v hf => ?_, fun s hs => ?_, fun xs hxs => ?_, fun v ht hv => ?_⟩
  · simp [_parse_metrics, hf]
  · simp [_parse_metrics, pyTruthy, hs]
  · cases xs with
    | nil => exact absurd rfl hxs
    | cons x rest => rfl
  · cases v <;> simp_all [_parse_metrics, pyTruthy, isStrOrList]

theorem parse_metrics_characterization_witness :
    _parse_metrics PyVal.none = .ok (.list []) ∧
    _parse_metrics (.str "Accuracy") = .ok (.list [.str "Accuracy"]) ∧
    _parse_metrics (.list [.str "Accuracy"]) = .ok (.list [.str "Accuracy"]) ∧
    _parse_metrics (.int 3) = .error metricsTypeMsg := by
  refine ⟨parse_metrics_characterization.1 PyVal.none rfl, ?_, ?_, ?_⟩
  · exact parse_metrics_characterization.2.1 "Accuracy" (by simp)
  · exact parse_metrics_characterization.2.2.1 [.str "Accuracy"] (by simp)
  · exact parse_metrics_characterization.2.2.2 (.int 3) rfl rfl

/-- C6: with every other field valid, `check()` fails for every batch size
`b` with `b != -1` and `b < MIN_BATCH_SIZE`, and succeeds for `b == -1` and
for every integer `b >= MIN_BATCH_SIZE`. -/
theorem check_batch_size_rule (b : Int) :
    (b ≠ -1 ∧ b < MIN_BATCH_SIZE →
        ((paramsWithBatch b).check).2 = .error batchSizeMsg) ∧
    ((b = -1 ∨ MIN_BATCH_SIZE ≤ b) →
        ((paramsWithBatch b).check).2 = .ok true) := by
  have h := check_unfold (paramsWithBatch b)
      (.nsEarly (.str "diff") (.float defaultEps)) (.str "SGD") [] (.list [])
      rfl rfl rfl
  constructor
  · rintro ⟨h1, h2⟩
    have h2a : b < 10 := by simpa [MIN_BATCH_SIZE] using h2
    have hb : batchSizeError ((paramsWithBatch b).batch_size) = some batchSizeMsg := by
      show batchSizeError (PyVal.int b) = some batchSizeMsg
      simp [batchSizeError, pyEqInt, MIN_BATCH_SIZE, h1, h2a]
    rw [h, hb]
  · rintro (h1 | h1)
    · subst h1
      rfl
    · have h1a : 10 ≤ b := by simpa [MIN_BATCH_SIZE] using h1
      have hne : ¬ (b = -1) := by omega
      have hnl : ¬ (b < 10) := by omega
      have hb : batchSizeError ((paramsWithBatch b).batch_size) = Option.none := by
        show batchSizeError (PyVal.int b) = Option.none
        simp [batchSizeError, pyEqInt, MIN_BATCH_SIZE, hne, hnl]
      rw [h, hb]
      rfl

theorem check_batch_size_rule_witness :
    ((paramsWithBatch 5).check).2 = .error batchSizeMsg ∧
    ((paramsWithBatch (-1)).check).2 = .ok true ∧
    ((paramsWithBatch 64).check).2 = .ok true :=
  ⟨(check_batch_size_rule 5).1 ⟨by decide, by decide⟩,
   (check_batch_size_rule (-1)).2 (Or.inl rfl),
   (check_batch_size_rule 64).2 (Or.inr (by decide))⟩

/-- C7: with every other field valid and the normalized optimizer kwargs
holding a `decay` (resp. `learning_rate`) entry, `check()` fails when the
entry is non-numeric or negative and succeeds when it is numeric and
non-negative. -/
theorem check_optimizer_kwargs_rule (v : PyVal) :
    ((toNum? v = Option.none ∨ ∃ q, toNum? v = some q ∧ q < 0) →
        ((paramsWithOptKw "decay" v).check).2 = .error decayMsg ∧
        ((paramsWithOptKw "learning_rate" v).check).2 = .error learningRateMsg) ∧
    ((∃ q, toNum? v = some q ∧ 0 ≤ q) →
        ((paramsWithOptKw "decay" v).check).2 = .ok true ∧
        ((paramsWithOptKw "learning_rate" v).check).2 = .ok true) := by
  have hd := check_unfold (paramsWithOptKw "decay" v)
      (.nsEarly (.str "diff") (.float defaultEps)) (.str "SGD") [("decay", v)]
      (.list []) rfl rfl rfl
  have hl := check_unfold (paramsWithOptKw "learning_rate" v)
      (.nsEarly (.str "diff") (.float defaultEps)) (.str "SGD")
      [("learning_rate", v)] (.list []) rfl rfl rfl
  have hd2 : ((paramsWithOptKw "decay" v).check).2
      = (match kwargError "decay" decayMsg [("decay", v)] with
         | some e => Except.error e
         | Option.none => Except.ok true) := by
    rw [hd]
    rfl
  have hl2 : ((paramsWithOptKw "learning_rate" v).check).2
      = (match kwargError "learning_rate" learningRateMsg [("learning_rate", v)] with
         | some e => Except.error e
         | Option.none => Except.ok true) := by
    rw [hl]
    rfl
  constructor
  · rintro (hn | ⟨q, hq, hlt⟩)
    · have e1 : kwargError "decay" decayMsg [("decay", v)] = some decayMsg := by
        simp [kwargError, dictGet, hn]
      have e2 : kwargError "learning_rate" learningRateMsg [("learning_rate", v)]
          = some learningRateMsg := by
        simp [kwargError, dictGet, hn]
      rw [hd2, e1, hl2, e2]
      exact ⟨rfl, rfl⟩
    · have e1 : kwargError "decay" decayMsg [("decay", v)] = some decayMsg := by
        simp [kwargError, dictGet, hq, hlt]
      have e2 : kwargError "learning_rate" learningRateMsg [("learning_rate", v)]
          = some learningRateMsg := by
        simp [kwargError, dictGet, hq, hlt]
      rw [hd2, e1, hl2, e2]
      exact ⟨rfl, rfl⟩
  · rintro ⟨q, hq, hge⟩
    have hnl : ¬ (q < 0) := not_lt.mpr hge
    have e1 : kwargError "decay" decayMsg [("decay", v)] = Option.none := by
      simp [kwargError, dictGet, hq, hnl]
    have e2 : kwargError "learning_rate" learningRateMsg [("learning_rate", v)]
        = Option.none := by
      simp [kwargError, dictGet, hq, hnl]
    rw [hd2, e1, hl2, e2]
    exact ⟨rfl, rfl⟩

theorem check_optimizer_kwargs_rule_witness :
    ((paramsWithOptKw "decay" (.float (-1/2))).check).2 = .error decayMsg ∧
    ((paramsWithOptKw "learning_rate" (.str "fast")).check).2 = .error learningRateMsg ∧
    ((paramsWithOptKw "decay" (.int 1)).check).2 = .ok true ∧
    ((paramsWithOptKw "learning_rate" (.float (1/20))).check).2 = .ok true :=
  ⟨((check_optimizer_kwargs_rule (.float (-1/2))).1
      (Or.inr ⟨-1/2, rfl, by norm_num⟩)).1,
   ((check_optimizer_kwargs_rule (.str "fast")).1 (Or.inl rfl)).2,
   ((check_optimizer_kwargs_rule (.int 1)).2 ⟨1, rfl, by norm_num⟩).1,
   ((check_optimizer_kwargs_rule (.float (1/20))).2 ⟨1/20, rfl, by norm_num⟩).2⟩

/-- C8: with every other field valid, `check()` fails for every `max_iter`
that is not an `int` (by exact runtime type) and for every non-positive
integer, and succeeds for every integer at least 1. -/
theorem check_max_iter_rule (m : PyVal) :
    ((∀ k : Int, m ≠ .int k) →
        ((paramsWithMaxIter m).check).2 = .error maxIterTypeMsg) ∧
    (∀ k : Int, m = .int k →
        (k ≤ 0 → ((paramsWithMaxIter m).check).2 = .error maxIterPosMsg) ∧
        (1 ≤ k → ((paramsWithMaxIter m).check).2 = .ok true)) := by
  have h := check_unfold (paramsWithMaxIter m)
      (.nsEarly (.str "diff") (.float defaultEps)) (.str "SGD") [] (.list [])
      rfl rfl rfl
  have h2 : ((paramsWithMaxIter m).check).2
      = (match maxIterError m with
         | some e => Except.error e
         | Option.none => Except.ok true) := by
    rw [h]
    rfl
  constructor
  · intro hne
    have hm : maxIterError m = some maxIterTypeMsg := by
      cases m
      case int k => exact absurd rfl (hne k)
      all_goals rfl
    rw [h2, hm]
  · intro k hk
    subst hk
    constructor
    · intro hle
      have hm : maxIterError (.int k) = some maxIterPosMsg := by
        simp [maxIterError, hle]
      rw [h2, hm]
    · intro hge
      have hm : maxIterError (.int k) = Option.none := by
        have : ¬ (k ≤ 0) := by omega
        simp [maxIterError, this]
      rw [h2, hm]

theorem check_max_iter_rule_witness :
    ((paramsWithMaxIter (.int 0)).check).2 = .error maxIterPosMsg ∧
    ((paramsWithMaxIter (.int 1)).check).2 = .ok true ∧
    ((paramsWithMaxIter (.float 100)).check).2 = .error maxIterTypeMsg :=
  ⟨((check_max_iter_rule (.int 0)).2 0 rfl).1 le_rfl,
   ((check_max_iter_rule (.int 1)).2 1 rfl).2 le_rfl,
   (check_max_iter_rule (.float 100)).1 (fun k h => PyVal.noConfusion h)⟩

/-- C9: `check()` is not atomic on failure.  Whenever the three normalizers
succeed and `check()` then raises at a later validation step, the object
keeps the normalized `early_stop`, `optimizer` and `metrics` values; no
mutation is rolled back. -/
theorem check_keeps_normalized_fields_on_failure
    (p : MatrixFactorizationParam) (es opt ms : PyVal) (e : String)
    (h1 : _parse_early_stop p.early_stop = .ok es)
    (h2 : _parse_optimizer p.optimizer = .ok opt)
    (h3 : _parse_metrics p.metrics = .ok ms)
    (hfail : (p.check).2 = .error e) :
    (p.check).1.early_stop = es ∧ (p.check).1.optimizer = opt ∧
    (p.check).1.metrics = ms := by
  have hs := check_state p es opt ms h1 h2 h3
  rw [hs]
  exact ⟨rfl, rfl, rfl⟩

theorem check_keeps_normalized_fields_on_failure_witness :
    ((paramsWithBatch 3).check).2 = .error batchSizeMsg ∧
    ((paramsWithBatch 3).check).1.early_stop
      = .nsEarly (.str "diff") (.float defaultEps) ∧
    ((paramsWithBatch 3).check).1.optimizer = .nsOpt (.str "SGD") [] ∧
    ((paramsWithBatch 3).check).1.metrics = .list [] := by
  refine ⟨rfl, ?_⟩
  exact check_keeps_normalized_fields_on_failure (paramsWithBatch 3)
    (.nsEarly (.str "diff") (.float defaultEps)) (.nsOpt (.str "SGD") [])
    (.list []) batchSizeMsg rfl rfl rfl rfl

/-- C1 (amended): on every `HeteroMatrixParam` in canonical normalized form
whose early-stop method and optimizer name are non-empty strings,
`generate_pb` followed by `restore_from_pb` reproduces every scalar field
(secure_aggregate, aggregate_every_n_epoch, batch_size, max_iter, loss,
embedding dimension) and the canonical early-stop, optimizer and metrics
shapes exactly; only the initialisation method — a default-value field not
represented in the schema — is reset to its default.  The non-emptiness
hypotheses are necessary: empty method/name canonical states pass `check()`
but make `restore_from_pb` raise (see the counterexample). -/
theorem generate_restore_roundtrip (sa : Bool) (agg bs mi : Int) (m : String)
    (q : ℚ) (ms : List String) (o : String) (kw : List (String × PyVal))
    (l : String) (ed : Int) (im pp cv vf ai : PyVal)
    (hm : m ≠ "") (ho : o ≠ "")
    (hkw : ∀ kv ∈ kw, kv.1 ≠ "optimizer" ∧ jsonable kv.2 = true) :
    (mkHetero sa agg bs mi m q ms o kw l ed im pp cv vf ai).roundTrip
      = .ok (mkHetero sa agg bs mi m q ms o kw l ed (.str "random_normal")
               pp cv vf ai) := by
  have hjson : jsonableEntries kw = true :=
    jsonableEntries_of_forall kw (fun kv hkv => (hkw kv hkv).2)
  have hany : kw.any (fun kv => kv.1 == "optimizer") = false := by
    rw [Bool.eq_false_iff]
    intro hsome
    rw [List.any_eq_true] at hsome
    obtain ⟨kv, hkv, hb⟩ := hsome
    exact (hkw kv hkv).1 (by simpa using hb)
  have hfilter : kw.filter (fun kv => kv.1 != "optimizer") = kw := by
    rw [List.filter_eq_self]
    intro kv hkv
    simpa using (hkw kv hkv).1
  have hpb : (mkHetero sa agg bs mi m q ms o kw l ed im pp cv vf ai).generate_pb
      = .ok { secure_aggregate := sa, aggregate_every_n_epoch := agg,
              batch_size := bs, max_iter := mi, early_stop_method := m,
              early_stop_eps := q, metrics := ms, optimizer_name := o,
              optimizer_args := kw, loss := l, embed_dim := ed } := by
    simp [HeteroMatrixParam.generate_pb, mkHetero, toNum?, asStrList_map_str, hjson]
  have hes : _parse_early_stop (.dict [("early_stop", .str m), ("eps", .float q)])
      = .ok (.nsEarly (.str m) (.float q)) := by
    simp [_parse_early_stop, dictGet, pyTruthy, hm]
  have hopt : _parse_optimizer (.dict (("optimizer", .str o) :: kw))
      = .ok (.nsOpt (.str o) kw) := by
    simp [_parse_optimizer, dictGet, pyTruthy, ho, hfilter]
  have hres : (mkHetero sa agg bs mi m q ms o kw l ed im pp cv vf ai).restore_from_pb
      { secure_aggregate := sa, aggregate_every_n_epoch := agg,
        batch_size := bs, max_iter := mi, early_stop_method := m,
        early_stop_eps := q, metrics := ms, optimizer_name := o,
        optimizer_args := kw, loss := l, embed_dim := ed }
      = .ok (mkHetero sa agg bs mi m q ms o kw l ed (.str "random_normal")
               pp cv vf ai) := by
    simp [HeteroMatrixParam.restore_from_pb, mkHetero, hes, hopt, hany]
  simp [HeteroMatrixParam.roundTrip, hpb, hres]

theorem generate_restore_roundtrip_witness :
    (mkHetero true 1 (-1) 100 "diff" defaultEps ["Accuracy"] "SGD"
       [("learning_rate", .float (1/20))] "mse" 10 (.str "random_normal")
       PyVal.none PyVal.none PyVal.none (.int 1)).roundTrip
      = .ok (mkHetero true 1 (-1) 100 "diff" defaultEps ["Accuracy"] "SGD"
               [("learning_rate", .float (1/20))] "mse" 10
               (.str "random_normal") PyVal.none PyVal.none PyVal.none
               (.int 1)) := by
  refine generate_restore_roundtrip true 1 (-1) 100 "diff" defaultEps
    ["Accuracy"] "SGD" [("learning_rate", .float (1/20))] "mse" 10
    (.str "random_normal") PyVal.none PyVal.none PyVal.none (.int 1)
    (by decide) (by decide) ?_
  intro kv hkv
  simp only [List.mem_singleton] at hkv
  subst hkv
  exact ⟨by decide, rfl⟩

/-- C1 (counterexample): canonical post-`check()` states with an empty
early-stop method or an empty optimizer name are reachable — the string
branches of the normalizers have no truthiness guard — and on them the
generate/restore round trip raises inside the re-run normalizer
(`if not early_stop` / `if not optimizer` on the rebuilt dict) instead of
reproducing the fields, refuting the unrestricted claim. -/
theorem roundtrip_falsy_canonical_counterexample :
    (emptyMethodParam.check).2 = .ok true ∧
    ((emptyMethodParam.check).1).roundTrip = .error earlyStopConfigMsg ∧
    (emptyNameParam.check).2 = .ok true ∧
    ((emptyNameParam.check).1).roundTrip = .error optimizerConfigMsg :=
  ⟨rfl, rfl, rfl, rfl⟩
